import Mathlib

/-!
Shallow embedding of the pluggable vector-search backend layer of the
AIDR-Bastion similarity pipeline
(`app/pipelines/similarity_pipeline/backends/{base,qdrant_backend,opensearch_backend,factory}.py`).

Modelling conventions:
* Python floats (similarity scores) are modelled as rationals `ℚ`:
  only order comparisons on them occur in this layer.
* A Python dict payload is an association list `List (String × PVal)`;
  `dict.get(k, d)` is `pget`.
* Each network call on an underlying client is an oracle argument of type
  `Except Unit α`: `.error ()` is the call raising an exception, `.ok a`
  the call returning `a`.  The adapters catch every exception inside
  their `try` blocks, so each embedded operation is a total function
  returning a plain value — "never raises to the caller" is explicit in
  the types.
* Adapter methods that in Python could mutate `self` are embedded as
  functions returning the (possibly updated) adapter state, so frame
  properties are genuine statements about the translation of each method
  body.
-/

set_option autoImplicit false

namespace AIDRBastion

/-- Model of a JSON-serializable Python value stored in a payload field:
a string or a (possibly nested) dict. -/
inductive PVal where
  | str : String → PVal
  | obj : List (String × PVal) → PVal

/-- Python truthiness of a modelled payload value (`""` and `{}` are falsy). -/
def pvalTruthy : PVal → Bool
  | .str s => s != ""
  | .obj l => !l.isEmpty

/-- `payload.get(key, default)` on a Python dict modelled as an association list. -/
def pget (p : List (String × PVal)) (k : String) (dflt : PVal) : PVal :=
  (p.lookup k).getD dflt

/-- `SearchResult` from `backends/base.py`: the normalized result record.
The scalar fields carry `PVal` because Python's annotations are unenforced:
the adapters store whatever the payload holds.  The constructor applies
`metadata or {}` via `pvalTruthy`. -/
structure SearchResult where
  doc_id : PVal
  text : PVal
  details : PVal
  category : PVal
  score : ℚ
  metadata : PVal

/-- `SearchResult.__init__`: `self.metadata = metadata or {}`. -/
def mkSearchResult (doc_id text details category : PVal) (score : ℚ)
    (metadata : PVal) : SearchResult :=
  { doc_id := doc_id, text := text, details := details, category := category,
    score := score,
    metadata := if pvalTruthy metadata then metadata else .obj [] }

/-- Descending order of a score list (the order contract of
`search_similar_documents`). -/
def sortedDescQ : List ℚ → Bool
  | [] => true
  | [_] => true
  | a :: b :: t => decide (b ≤ a) && sortedDescQ (b :: t)

/-! ## Qdrant adapter (`backends/qdrant_backend.py`) -/

/-- Adapter state of `QdrantBackend`: the constructor arguments plus the
connection handle `client` (the handle's internals are opaque here) and the
`_connected` flag.  `__init__` sets `client = None`, `_connected = False`. -/
structure QdrantState where
  host : String
  port : Int
  collectionName : String
  client : Option Unit
  connected : Bool

/-- `QdrantBackend.__init__`. -/
def mkQdrantBackend (host : String) (port : Int) (collectionName : String) :
    QdrantState :=
  { host := host, port := port, collectionName := collectionName,
    client := none, connected := false }

/-- `QdrantBackend.is_connected`: `self._connected and self.client is not None`. -/
def qdrantIsConnected (s : QdrantState) : Bool :=
  s.connected && s.client.isSome

/-- One hit returned by `client.search`: the engine point id (modelled by its
`str()` rendering), the similarity score, and the optional payload dict. -/
structure QHit where
  id : String
  score : ℚ
  payload : Option (List (String × PVal))

/-- The body of the `for hit in search_result:` loop in
`QdrantBackend.search_similar_documents`: `payload = hit.payload or {}` and
field extraction with `payload.get`, falling back to `str(hit.id)` for the id. -/
def qTranslateHit (h : QHit) : SearchResult :=
  let payload := h.payload.getD []
  mkSearchResult
    (pget payload "id" (.str h.id))
    (pget payload "text" (.str ""))
    (pget payload "details" (.str ""))
    (pget payload "category" (.str ""))
    h.score
    (pget payload "metadata" (.obj []))

/-- The request `QdrantBackend.search_similar_documents` passes to
`client.search` (collection name, query vector, `limit`, `score_threshold`). -/
structure QSearchRequest where
  collectionName : String
  vector : List ℚ
  limit : Int
  scoreThreshold : ℚ

/-- `QdrantBackend.search_similar_documents`.  Guard: `if not self.client or
not self._connected: return []`.  The underlying `client.search` is the
oracle `client` applied to the request the method builds; any exception it
raises is caught and mapped to `[]`. -/
def qdrantSearchOp (s : QdrantState)
    (client : QSearchRequest → Except Unit (List QHit))
    (vector : List ℚ) (limit : Int) (minScore : ℚ) :
    List SearchResult × QdrantState :=
  if s.client = none ∨ s.connected = false then ([], s)
  else
    match client { collectionName := s.collectionName, vector := vector,
                   limit := limit, scoreThreshold := minScore } with
    | .error _ => ([], s)
    | .ok hits => (hits.map qTranslateHit, s)

/-- The payload dict `QdrantBackend.index_document` builds. -/
def qdrantIndexPayload (docId text details category : String)
    (metadata : Option (List (String × PVal))) : List (String × PVal) :=
  [("id", .str docId), ("text", .str text), ("details", .str details),
   ("category", .str category), ("metadata", .obj (metadata.getD []))]

/-- The `PointStruct` `QdrantBackend.index_document` sends to `client.upsert`. -/
structure QPoint where
  id : String
  vector : List ℚ
  payload : List (String × PVal)

/-- Point construction in `QdrantBackend.index_document`. -/
def qdrantIndexPoint (docId : String) (vector : List ℚ)
    (text details category : String)
    (metadata : Option (List (String × PVal))) : QPoint :=
  { id := docId, vector := vector,
    payload := qdrantIndexPayload docId text details category metadata }

/-- `QdrantBackend.index_document`.  Guard as in search; `client.upsert` is
the oracle applied to the point; `True` is returned exactly when the upsert
call completes without raising. -/
def qdrantIndexOp (s : QdrantState) (client : QPoint → Except Unit Unit)
    (docId : String) (vector : List ℚ) (text details category : String)
    (metadata : Option (List (String × PVal))) : Bool × QdrantState :=
  if s.client = none ∨ s.connected = false then (false, s)
  else
    match client (qdrantIndexPoint docId vector text details category metadata) with
    | .error _ => (false, s)
    | .ok _ => (true, s)

/-- `QdrantBackend.delete_document`.  Guard as in search; `client.delete` is
the oracle applied to the document id. -/
def qdrantDeleteOp (s : QdrantState) (client : String → Except Unit Unit)
    (docId : String) : Bool × QdrantState :=
  if s.client = none ∨ s.connected = false then (false, s)
  else
    match client docId with
    | .error _ => (false, s)
    | .ok _ => (true, s)

/-- The set of collections existing on the engine side, with their configured
vector sizes.  Updated only by a successful `create_collection` call. -/
abbrev CollectionWorld := List (String × Int)

/-- `QdrantBackend.create_collection`.  Guard is `if not self.client:` only
(no `_connected` check in the source).  On a non-raising
`client.create_collection` the collection is created with the given size. -/
def qdrantCreateCollectionOp (s : QdrantState) (world : CollectionWorld)
    (name : String) (vectorSize : Int) (client : Except Unit Unit) :
    Bool × CollectionWorld × QdrantState :=
  if s.client = none then (false, world, s)
  else
    match client with
    | .error _ => (false, world, s)
    | .ok _ => (true, (name, vectorSize) :: world, s)

/-- `QdrantBackend.close`: `if self.client:` then `client.close()` inside a
`try` that on success sets `_connected = False` and on exception only logs.
The `client` field is never reassigned. -/
def qdrantCloseOp (s : QdrantState) (client : Except Unit Unit) : QdrantState :=
  match s.client with
  | none => s
  | some _ =>
    match client with
    | .ok _ => { s with connected := false }
    | .error _ => s

/-- Outcome of `client.get_collection(name)` inside
`_ensure_collection_exists`: success, an `UnexpectedResponse` whose message
contains "doesn't exist", or any other exception. -/
inductive QGetCollResult where
  | found
  | missingErr
  | otherErr

/-- `QdrantBackend.connect` composed with `_ensure_collection_exists`:
construct the client, test with `get_collections` (oracle `test`), set
`_connected = True`, then check the bound collection (`getColl`); if it is
missing, call `create_collection(self.collection_name, vector_size=384)`
(oracle `create`; the returned bool is ignored).  Any other
`get_collection` error re-raises into `connect`'s handler, which sets
`_connected = False` and `client = None`. -/
def qdrantConnect (s : QdrantState) (world : CollectionWorld)
    (test : Except Unit Unit) (getColl : QGetCollResult)
    (create : Except Unit Unit) : QdrantState × CollectionWorld :=
  let s1 : QdrantState := { s with client := some () }
  match test with
  | .error _ => ({ s1 with connected := false, client := none }, world)
  | .ok _ =>
    let s2 : QdrantState := { s1 with connected := true }
    match getColl with
    | .found => (s2, world)
    | .missingErr =>
      let r := qdrantCreateCollectionOp s2 world s2.collectionName 384 create
      (r.2.2, r.2.1)
    | .otherErr => ({ s2 with connected := false, client := none }, world)

/-! ## OpenSearch adapter (`backends/opensearch_backend.py`)

The adapter wraps `AsyncOpenSearchClient` from `app/modules/opensearch`,
which is not part of the analysed sources; its behaviour is modelled from
the specification where needed (see `osClientSearch`, `osClientConnectStep`,
`osClientCloseStep`). -/

/-- Model of the `AsyncOpenSearchClient` collaborator: it owns the actual
low-level connection `inner` (`self.client.client` in the adapter's code),
which is `None` until its `connect()` establishes it. -/
structure OSClient where
  inner : Option Unit

/-- The OpenSearch settings object (opaque here beyond the fields the
adapter logs). -/
structure OSSettings where
  host : String
  port : Int

/-- Adapter state of `OpenSearchBackend`: effective settings, bound index
name, the wrapped `AsyncOpenSearchClient` handle, and the `_connected` flag. -/
structure OSState where
  settings : Option OSSettings
  collectionName : String
  client : Option OSClient
  connected : Bool

/-- Global settings relevant to this layer (`settings.py` is not among the
analysed sources; the fields are exactly those the adapters and factory
read: `QDRANT_HOST`/`QDRANT_PORT` via `getattr` with a `None` default, the
`OS` settings object, and `SIMILARITY_PROMPT_INDEX`). -/
structure Settings where
  qdrantHost : Option String
  qdrantPort : Option Int
  os : Option OSSettings
  similarityPromptIndex : String

/-- `OpenSearchBackend.__init__`: `self.settings = os_settings or
settings.OS`, `self.collection_name = collection_name or
settings.SIMILARITY_PROMPT_INDEX`, and a fresh (unconnected)
`AsyncOpenSearchClient` is constructed iff the effective settings are
non-null. -/
def mkOpenSearchBackend (st : Settings) (osSettings : Option OSSettings)
    (collectionName : Option String) : OSState :=
  let eff := match osSettings with
    | some x => some x
    | none => st.os
  { settings := eff,
    collectionName := match collectionName with
      | some n => n
      | none => st.similarityPromptIndex,
    client := if eff.isSome then some { inner := none } else none,
    connected := false }

/-- `OpenSearchBackend.is_connected`: `self._connected and self.client is
not None and self.client.client is not None`. -/
def osIsConnected (s : OSState) : Bool :=
  s.connected && (match s.client with
    | none => false
    | some c => c.inner.isSome)

/-- One raw hit dict returned by the underlying client's
`search_similar_documents`: the adapter reads `_source`, `_score` and `_id`
with `dict.get`, so each field is optional. -/
structure OSHit where
  source : Option (List (String × PVal))
  score : Option ℚ
  id : Option String

/-- Field extraction in the loop of
`OpenSearchBackend.search_similar_documents`:
`source = doc.get("_source", {})`, `score = doc.get("_score", 0.0)`,
`doc_id = source.get("id", str(doc.get("_id", "")))`, etc. -/
def osTranslateDoc (d : OSHit) : SearchResult :=
  let source := d.source.getD []
  mkSearchResult
    (pget source "id" (.str (d.id.getD "")))
    (pget source "text" (.str ""))
    (pget source "details" (.str ""))
    (pget source "category" (.str ""))
    (d.score.getD 0)
    (pget source "metadata" (.obj []))

/-- `doc.get("_score", 0.0)` for a raw hit. -/
def osHitScore (d : OSHit) : ℚ :=
  d.score.getD 0

/-- The `for doc in documents:` loop of
`OpenSearchBackend.search_similar_documents`: skip hits with
`score < min_score`, append the translated hit, and `break` once
`len(results) >= limit`.  `n` is the number of results accumulated so far. -/
def osSearchLoop (minScore : ℚ) (limit : Int) :
    List OSHit → Nat → List SearchResult
  | [], _ => []
  | d :: ds, n =>
    if osHitScore d < minScore then osSearchLoop minScore limit ds n
    else if (n + 1 : Int) ≥ limit then [osTranslateDoc d]
    else osTranslateDoc d :: osSearchLoop minScore limit ds (n + 1)

/-- Modelled from the spec: `AsyncOpenSearchClient.search_similar_documents`
(the collaborator's "search by vector" primitive, `app/modules/opensearch`
is not among the analysed sources).  With no established low-level
connection the call fails; otherwise it is the response oracle. -/
def osClientSearch (c : OSClient) (oracle : Except Unit (List OSHit)) :
    Except Unit (List OSHit) :=
  match c.inner with
  | none => .error ()
  | some _ => oracle

/-- `OpenSearchBackend.search_similar_documents`.  Guard: `if not
self.client or not self._connected: return []`; every exception from the
delegated call is caught and mapped to `[]`. -/
def osSearchOp (s : OSState) (oracle : Except Unit (List OSHit))
    (limit : Int) (minScore : ℚ) : List SearchResult × OSState :=
  match s.client with
  | none => ([], s)
  | some c =>
    if s.connected = false then ([], s)
    else
      match osClientSearch c oracle with
      | .error _ => ([], s)
      | .ok docs => (osSearchLoop minScore limit docs 0, s)

/-- The response dict of `client.client.index` as far as the adapter reads
it: `response.get("result")`. -/
structure OSWriteResponse where
  result : Option String

/-- The `doc_body` dict `OpenSearchBackend.index_document` builds:
`{"id": ..., "text": ..., "details": ..., "category": ..., "vector": ...,
"metadata": metadata or {}}`. -/
structure OSDocBody where
  id : String
  text : String
  details : String
  category : String
  vector : List ℚ
  metadata : List (String × PVal)

/-- The `doc_body` construction in `OpenSearchBackend.index_document`
(`metadata or {}` for the metadata field). -/
def osIndexBody (docId : String) (vector : List ℚ)
    (text details category : String)
    (metadata : Option (List (String × PVal))) : OSDocBody :=
  { id := docId, text := text, details := details, category := category,
    vector := vector, metadata := metadata.getD [] }

/-- `OpenSearchBackend.index_document`.  Guard as in search; the body is
sent via `self.client.client.index(...)` — if the low-level connection
`client.client` is `None` this raises (attribute access on `None`), caught
by the handler; `True` iff `response.get("result")` is `created`/`updated`. -/
def osIndexOp (s : OSState)
    (oracle : OSDocBody → Except Unit OSWriteResponse)
    (docId : String) (vector : List ℚ) (text details category : String)
    (metadata : Option (List (String × PVal))) : Bool × OSState :=
  match s.client with
  | none => (false, s)
  | some c =>
    if s.connected = false then (false, s)
    else
      match c.inner, oracle (osIndexBody docId vector text details category metadata) with
      | none, _ => (false, s)
      | some _, .error _ => (false, s)
      | some _, .ok r =>
        (decide (r.result = some "created" ∨ r.result = some "updated"), s)

/-- `OpenSearchBackend.delete_document`: like `index_document`, with
success iff `response.get("result") == "deleted"`. -/
def osDeleteOp (s : OSState) (oracle : String → Except Unit OSWriteResponse)
    (docId : String) : Bool × OSState :=
  match s.client with
  | none => (false, s)
  | some c =>
    if s.connected = false then (false, s)
    else
      match c.inner, oracle docId with
      | none, _ => (false, s)
      | some _, .error _ => (false, s)
      | some _, .ok r => (decide (r.result = some "deleted"), s)

/-- The response of `client.client.indices.create` as far as the adapter
reads it: `response.get("acknowledged")`. -/
structure OSCreateResponse where
  acknowledged : Bool

/-- `OpenSearchBackend.create_collection`.  Guard includes `_connected`;
on an acknowledged creation the index exists with the given dimensionality. -/
def osCreateCollectionOp (s : OSState) (world : CollectionWorld)
    (name : String) (vectorSize : Int)
    (oracle : Except Unit OSCreateResponse) :
    Bool × CollectionWorld × OSState :=
  match s.client with
  | none => (false, world, s)
  | some c =>
    if s.connected = false then (false, world, s)
    else
      match c.inner, oracle with
      | none, _ => (false, world, s)
      | some _, .error _ => (false, world, s)
      | some _, .ok r =>
        if r.acknowledged then (true, (name, vectorSize) :: world, s)
        else (false, world, s)

/-- Modelled from the spec: `AsyncOpenSearchClient.connect` only
establishes the low-level network connection (the spec lists the
collaborator's primitives as connect, close and search-by-vector); it
either raises, or returns having set `client.client` or not. -/
def osClientConnectStep (oracle : Except Unit Bool) (_c : OSClient) :
    Except Unit OSClient :=
  match oracle with
  | .error _ => .error ()
  | .ok est => .ok { inner := if est then some () else none }

/-- `OpenSearchBackend.connect`: no-op when no client is configured;
otherwise `await self.client.connect()`, then `_connected` is set from
`if self.client.client:`; an exception sets `_connected = False`.  No
collection existence check occurs, so the engine-side collection world is
returned unchanged. -/
def osConnect (s : OSState) (world : CollectionWorld)
    (oracle : Except Unit Bool) : OSState × CollectionWorld :=
  match s.client with
  | none => (s, world)
  | some c =>
    match osClientConnectStep oracle c with
    | .error _ => ({ s with connected := false }, world)
    | .ok c' => ({ s with client := some c', connected := c'.inner.isSome }, world)

/-- Modelled from the spec: `AsyncOpenSearchClient.close` releases the
low-level connection on success, or raises. -/
def osClientCloseStep (oracle : Except Unit Unit) (_c : OSClient) :
    Except Unit OSClient :=
  match oracle with
  | .error _ => .error ()
  | .ok _ => .ok { inner := none }

/-- `OpenSearchBackend.close`: `if self.client:` then `await
self.client.close()` inside a `try` that on success sets
`_connected = False` and on exception only logs; the `client` field itself
is never set to `None`. -/
def osCloseOp (s : OSState) (oracle : Except Unit Unit) : OSState :=
  match s.client with
  | none => s
  | some c =>
    match osClientCloseStep oracle c with
    | .error _ => s
    | .ok c' => { s with client := some c', connected := false }

/-! ## Factory (`backends/factory.py`) -/

/-- Python `str.lower()`, modelled character-wise over the string's
character list (ASCII-sufficient for the backend names compared here). -/
def pyLower (s : String) : String :=
  String.mk (s.data.map Char.toLower)

/-- Python truthiness of the `QDRANT_HOST` setting (`None` and `""` are
falsy). -/
def hostTruthy : Option String → Bool
  | none => false
  | some s => s != ""

/-- `VectorBackendFactory._auto_detect_backend`: prefer Qdrant when
`QDRANT_HOST` is truthy, else OpenSearch when `settings.OS` is non-null,
else OpenSearch as the default fallback. -/
def autoDetectBackend (st : Settings) : String :=
  if hostTruthy st.qdrantHost then "qdrant"
  else if st.os.isSome then "opensearch"
  else "opensearch"

/-- Which concrete adapter the factory constructed. -/
inductive BackendChoice where
  | qdrant
  | opensearch
deriving DecidableEq

/-- `VectorBackendFactory.create_backend`: auto-detect when the requested
type is `None`, empty, or `"auto"`; lowercase; dispatch to the named
constructor, `None` for unknown names.  (The adapter constructors
themselves cannot raise, so the surrounding `try` has no failing path in
the model.) -/
def createBackend (st : Settings) (backendType : Option String) :
    Option BackendChoice :=
  let t := match backendType with
    | none => autoDetectBackend st
    | some s => if s = "" ∨ s = "auto" then autoDetectBackend st else s
  let t := pyLower t
  if t = "qdrant" then some .qdrant
  else if t = "opensearch" then some .opensearch
  else none

/-! ## Helper lemmas -/

/-- A disconnected Qdrant adapter has a null handle or a cleared flag. -/
theorem qdrant_not_connected_cases (s : QdrantState)
    (h : qdrantIsConnected s = false) :
    s.client = none ∨ s.connected = false := by
  cases hc : s.client with
  | none => exact Or.inl rfl
  | some u =>
    cases hcon : s.connected with
    | false => exact Or.inr rfl
    | true =>
      exfalso
      simp [qdrantIsConnected, hc, hcon] at h

/-- A disconnected OpenSearch adapter has a null handle, a cleared flag, or
a wrapped client with no low-level connection. -/
theorem os_not_connected_cases (s : OSState) (h : osIsConnected s = false) :
    s.client = none ∨ s.connected = false ∨
      (∃ c, s.client = some c ∧ c.inner = none) := by
  cases hc : s.client with
  | none => exact Or.inl rfl
  | some c =>
    cases hcon : s.connected with
    | false => exact Or.inr (Or.inl rfl)
    | true =>
      cases hi : c.inner with
      | none => exact Or.inr (Or.inr ⟨c, rfl, hi⟩)
      | some u =>
        exfalso
        simp [osIsConnected, hc, hcon, hi] at h

/-- The Qdrant hit translation preserves the similarity score. -/
theorem qTranslateHit_score (h : QHit) : (qTranslateHit h).score = h.score :=
  rfl

/-- The OpenSearch hit translation carries `doc.get("_score", 0.0)`. -/
theorem osTranslateDoc_score (d : OSHit) :
    (osTranslateDoc d).score = osHitScore d :=
  rfl

/-- For a positive remaining budget, the translation loop of
`OpenSearchBackend.search_similar_documents` computes the first qualifying
hits: filter by `score >= min_score`, truncate, translate.  `n` is the
number of results already accumulated. -/
theorem osSearchLoop_take_filter (m : ℚ) (limit : Int) :
    ∀ (docs : List OSHit) (n : Nat), (n : Int) < limit →
      osSearchLoop m limit docs n =
        ((docs.filter (fun d => !decide (osHitScore d < m))).take
          (limit - (n : Int)).toNat).map osTranslateDoc := by
  intro docs
  induction docs with
  | nil =>
    intro n hn
    simp [osSearchLoop]
  | cons d ds ih =>
    intro n hn
    by_cases hq : osHitScore d < m
    · simp [osSearchLoop, hq, ih n hn]
    · by_cases hstop : (n + 1 : Int) ≥ limit
      · have h1 : (limit - (n : Int)).toNat = 1 := by omega
        simp [osSearchLoop, hq, hstop, h1]
      · have hn' : ((n + 1 : Nat) : Int) < limit := by push_cast; omega
        have h2 : (limit - (n : Int)).toNat
            = (limit - ((n + 1 : Nat) : Int)).toNat + 1 := by push_cast; omega
        simp [osSearchLoop, hq, hstop, h2, ih (n + 1) hn']

/-- Every result produced by the OpenSearch translation loop is the
translation of one of the raw hits. -/
theorem osSearchLoop_mem (m : ℚ) (limit : Int) :
    ∀ (docs : List OSHit) (n : Nat) (r : SearchResult),
      r ∈ osSearchLoop m limit docs n → ∃ d ∈ docs, r = osTranslateDoc d := by
  intro docs
  induction docs with
  | nil =>
    intro n r hr
    simp [osSearchLoop] at hr
  | cons d ds ih =>
    intro n r hr
    by_cases hq : osHitScore d < m
    · simp only [osSearchLoop, if_pos hq] at hr
      rcases ih n r hr with ⟨d', hd', hrfl⟩
      exact ⟨d', List.mem_cons_of_mem d hd', hrfl⟩
    · by_cases hstop : (n + 1 : Int) ≥ limit
      · simp only [osSearchLoop, if_neg hq, if_pos hstop,
          List.mem_singleton] at hr
        exact ⟨d, List.mem_cons_self d ds, hr⟩
      · simp only [osSearchLoop, if_neg hq, if_neg hstop,
          List.mem_cons] at hr
        rcases hr with hr | hr
        · exact ⟨d, List.mem_cons_self d ds, hr⟩
        · rcases ih (n + 1) r hr with ⟨d', hd', hrfl⟩
          exact ⟨d', List.mem_cons_of_mem d hd', hrfl⟩

/-! ## Claims -/

/-- C1: on any backend adapter with `is_connected == false` (fresh instance,
failed `connect()`, or any other disconnected state),
`search_similar_documents` returns `[]` and `index_document` /
`delete_document` return `false`, whatever the underlying client oracles
would do; the embedded operations are total functions, so no exception
reaches the caller. -/
theorem disconnected_ops_are_noops
    (qs : QdrantState) (hq : qdrantIsConnected qs = false)
    (os : OSState) (ho : osIsConnected os = false) :
    (∀ client v l m, (qdrantSearchOp qs client v l m).1 = []) ∧
    (∀ client dI v t d c md, (qdrantIndexOp qs client dI v t d c md).1 = false) ∧
    (∀ client dI, (qdrantDeleteOp qs client dI).1 = false) ∧
    (∀ o l m, (osSearchOp os o l m).1 = []) ∧
    (∀ o dI v t d c md, (osIndexOp os o dI v t d c md).1 = false) ∧
    (∀ o dI, (osDeleteOp os o dI).1 = false) := by
  have hq' := qdrant_not_connected_cases qs hq
  have ho' := os_not_connected_cases os ho
  refine ⟨?_, ?_, ?_, ?_, ?_, ?_⟩
  · intro client v l m
    rcases hq' with h | h <;> simp [qdrantSearchOp, h]
  · intro client dI v t d c md
    rcases hq' with h | h <;> simp [qdrantIndexOp, h]
  · intro client dI
    rcases hq' with h | h <;> simp [qdrantDeleteOp, h]
  · intro o l m
    rcases ho' with h | h | ⟨c, hc, hi⟩
    · simp [osSearchOp, h]
    · cases hc : os.client <;> simp [osSearchOp, hc, h]
    · cases hcon : os.connected <;>
        simp [osSearchOp, hc, hcon, osClientSearch, hi]
  · intro o dI v t d c md
    rcases ho' with h | h | ⟨c, hc, hi⟩
    · simp [osIndexOp, h]
    · cases hc : os.client <;> simp [osIndexOp, hc, h]
    · cases hcon : os.connected <;> simp [osIndexOp, hc, hcon, hi]
  · intro o dI
    rcases ho' with h | h | ⟨c, hc, hi⟩
    · simp [osDeleteOp, h]
    · cases hc : os.client <;> simp [osDeleteOp, hc, h]
    · cases hcon : os.connected <;> simp [osDeleteOp, hc, hcon, hi]

/-- Witness for C1: freshly constructed adapters are disconnected, and the
operations return the neutral values on them. -/
theorem disconnected_ops_are_noops_witness :
    (qdrantSearchOp (mkQdrantBackend "localhost" 6333 "similarity-prompts")
        (fun _ => .ok [⟨"a", 1, none⟩]) [1] 10 0).1 = [] ∧
    (osIndexOp (mkOpenSearchBackend ⟨none, none, none, "idx"⟩ none none)
        (fun _ => .ok ⟨some "created"⟩) "a" [1] "t" "d" "c" none).1 = false := by
  have h := disconnected_ops_are_noops
    (mkQdrantBackend "localhost" 6333 "similarity-prompts") rfl
    (mkOpenSearchBackend ⟨none, none, none, "idx"⟩ none none) rfl
  exact ⟨h.1 _ _ _ _, h.2.2.2.2.1 _ _ _ _ _ _ _⟩

/-- C10: `search_similar_documents`, `index_document`, `delete_document` and
`create_collection` never touch the adapter's connection state: the state
component returned by each embedded method equals the input state, for
every starting state and every oracle outcome (hence `is_connected` is
unchanged); only `connect` and `close` reassign `client`/`_connected`. -/
theorem ops_preserve_connection_state :
    (∀ (qs : QdrantState) client v l m, (qdrantSearchOp qs client v l m).2 = qs) ∧
    (∀ (qs : QdrantState) client dI v t d c md,
      (qdrantIndexOp qs client dI v t d c md).2 = qs) ∧
    (∀ (qs : QdrantState) client dI, (qdrantDeleteOp qs client dI).2 = qs) ∧
    (∀ (qs : QdrantState) w n sz client,
      (qdrantCreateCollectionOp qs w n sz client).2.2 = qs) ∧
    (∀ (os : OSState) o l m, (osSearchOp os o l m).2 = os) ∧
    (∀ (os : OSState) o dI v t d c md, (osIndexOp os o dI v t d c md).2 = os) ∧
    (∀ (os : OSState) o dI, (osDeleteOp os o dI).2 = os) ∧
    (∀ (os : OSState) w n sz o, (osCreateCollectionOp os w n sz o).2.2 = os) := by
  refine ⟨?_, ?_, ?_, ?_, ?_, ?_, ?_, ?_⟩ <;> intros <;>
    first
      | (unfold qdrantSearchOp; repeat' split) <;> rfl
      | (unfold qdrantIndexOp; repeat' split) <;> rfl
      | (unfold qdrantDeleteOp; repeat' split) <;> rfl
      | (unfold qdrantCreateCollectionOp; repeat' split) <;> rfl
      | (unfold osSearchOp; repeat' split) <;> rfl
      | (unfold osIndexOp; repeat' split) <;> rfl
      | (unfold osDeleteOp; repeat' split) <;> rfl
      | (unfold osCreateCollectionOp; repeat' split) <;> rfl

/-- C4 counterexample: on a connected Qdrant adapter, a `close()` whose
underlying `client.close()` succeeds leaves the connection handle non-null
(the source never reassigns `self.client` in `close`), and a `close()`
whose underlying close raises leaves `is_connected == true` — both
contradict "after any close() call the connection handle is null and
is_connected == false". -/
theorem close_state_counterexample :
    (qdrantCloseOp ⟨"localhost", 6333, "p", some (), true⟩ (.ok ())).client
        = some () ∧
    qdrantIsConnected
        (qdrantCloseOp ⟨"localhost", 6333, "p", some (), true⟩ (.error ()))
        = true := by
  exact ⟨rfl, rfl⟩

/-- C4 amended: for both adapters, `close()` never raises (the embedded
operation is total, every exception of the underlying close is caught);
it is a no-op on a null handle; it never nulls the adapter's `client`
field (Qdrant leaves it untouched, OpenSearch keeps the wrapper, only its
low-level connection is released); when the underlying close succeeds
`is_connected` is `false` afterwards; when the flag was already `false`
(already closed or never connected) any further `close()` keeps
`is_connected == false`; when the underlying close raises, the adapter
state is unchanged — so `is_connected` may then remain `true`. -/
theorem close_state_amended (qs : QdrantState) (os : OSState)
    (oq oo : Except Unit Unit) :
    (qs.client = none → qdrantCloseOp qs oq = qs) ∧
    ((qdrantCloseOp qs oq).client = qs.client) ∧
    (qs.connected = false → qdrantIsConnected (qdrantCloseOp qs oq) = false) ∧
    (qs.client ≠ none → oq = .ok () →
      qdrantIsConnected (qdrantCloseOp qs oq) = false) ∧
    (oq = .error () → qdrantCloseOp qs oq = qs) ∧
    (os.client = none → osCloseOp os oo = os) ∧
    ((osCloseOp os oo).client = none ↔ os.client = none) ∧
    (os.connected = false → osIsConnected (osCloseOp os oo) = false) ∧
    (os.client ≠ none → oo = .ok () → osIsConnected (osCloseOp os oo) = false) ∧
    (oo = .error () → osCloseOp os oo = os) := by
  refine ⟨?_, ?_, ?_, ?_, ?_, ?_, ?_, ?_, ?_, ?_⟩
  · intro h
    simp [qdrantCloseOp, h]
  · cases hc : qs.client <;> cases oq <;> simp [qdrantCloseOp, hc]
  · intro h
    cases hc : qs.client <;> cases oq <;>
      simp [qdrantCloseOp, qdrantIsConnected, hc, h]
  · intro h hok
    cases hc : qs.client with
    | none => exact absurd hc h
    | some u => subst hok; simp [qdrantCloseOp, qdrantIsConnected, hc]
  · intro h
    subst h
    cases hc' : qs.client <;> simp [qdrantCloseOp, hc']
  · intro h
    simp [osCloseOp, h]
  · cases hc : os.client <;> cases oo <;>
      simp [osCloseOp, osClientCloseStep, hc]
  · intro h
    cases hc : os.client <;> cases oo <;>
      simp [osCloseOp, osClientCloseStep, osIsConnected, hc, h]
  · intro h hok
    cases hc : os.client with
    | none => exact absurd hc h
    | some c =>
      subst hok
      simp [osCloseOp, osClientCloseStep, osIsConnected, hc]
  · intro h
    subst h
    cases hc : os.client <;> simp [osCloseOp, osClientCloseStep, hc]

/-- Witness for C4 amended: a connected OpenSearch adapter closed with a
succeeding underlying close reports `is_connected == false`, and a second
close (whatever its underlying outcome) keeps it `false`. -/
theorem close_state_amended_witness :
    osIsConnected
      (osCloseOp ⟨some ⟨"h", 9200⟩, "p", some ⟨some ()⟩, true⟩ (.ok ())) = false ∧
    osIsConnected
      (osCloseOp (osCloseOp ⟨some ⟨"h", 9200⟩, "p", some ⟨some ()⟩, true⟩ (.ok ()))
        (.error ())) = false := by
  have h1 := close_state_amended ⟨"h", 1, "c", none, false⟩
    ⟨some ⟨"h", 9200⟩, "p", some ⟨some ()⟩, true⟩ (.ok ()) (.ok ())
  have h2 := close_state_amended ⟨"h", 1, "c", none, false⟩
    (osCloseOp ⟨some ⟨"h", 9200⟩, "p", some ⟨some ()⟩, true⟩ (.ok ())) (.ok ())
    (.error ())
  refine ⟨h1.2.2.2.2.2.2.2.2.1 (by simp) rfl, h2.2.2.2.2.2.2.2.1 ?_⟩
  exact rfl

/-- C2: on a connected Qdrant adapter, if the underlying `client.search`
honors the request the adapter builds — returning, for the passed `limit`
and `score_threshold = min_score`, at most `limit` hits, each with score at
least `min_score`, in descending score order — then the adapter's output
has length at most `limit`, every returned score is at least `min_score`,
and the sequence is sorted by descending score. -/
theorem qdrant_search_contract (s : QdrantState)
    (client : QSearchRequest → Except Unit (List QHit))
    (v : List ℚ) (limit : Int) (minScore : ℚ) (hits : List QHit)
    (hcl : s.client ≠ none) (hco : s.connected = true)
    (hres : client { collectionName := s.collectionName, vector := v,
                     limit := limit, scoreThreshold := minScore } = .ok hits)
    (hlen : (hits.length : Int) ≤ limit)
    (hmin : ∀ h ∈ hits, minScore ≤ h.score)
    (hsort : sortedDescQ (hits.map QHit.score) = true) :
    (((qdrantSearchOp s client v limit minScore).1.length : Int) ≤ limit) ∧
    (∀ r ∈ (qdrantSearchOp s client v limit minScore).1, minScore ≤ r.score) ∧
    sortedDescQ
      ((qdrantSearchOp s client v limit minScore).1.map SearchResult.score)
      = true := by
  have hguard : ¬ (s.client = none ∨ s.connected = false) := by
    rintro (h | h)
    · exact hcl h
    · rw [hco] at h; cases h
  have hout : (qdrantSearchOp s client v limit minScore).1
      = hits.map qTranslateHit := by
    simp [qdrantSearchOp, hguard, hres]
  have hscores : (hits.map qTranslateHit).map SearchResult.score
      = hits.map QHit.score := by
    rw [List.map_map]
    rfl
  refine ⟨?_, ?_, ?_⟩
  · rw [hout, List.length_map]
    exact hlen
  · intro r hr
    rw [hout] at hr
    rcases List.mem_map.mp hr with ⟨h, hh, hrfl⟩
    rw [← hrfl, qTranslateHit_score]
    exact hmin h hh
  · rw [hout, hscores]
    exact hsort

/-- Witness for C2: a connected adapter with a two-hit compliant response. -/
theorem qdrant_search_contract_witness :
    (((qdrantSearchOp ⟨"h", 6333, "c", some (), true⟩
        (fun _ => .ok [⟨"a", 2, none⟩, ⟨"b", 1, none⟩]) [1] 10 0).1.length : Int)
      ≤ 10) ∧
    (∀ r ∈ (qdrantSearchOp ⟨"h", 6333, "c", some (), true⟩
        (fun _ => .ok [⟨"a", 2, none⟩, ⟨"b", 1, none⟩]) [1] 10 0).1,
      (0 : ℚ) ≤ r.score) := by
  have h := qdrant_search_contract ⟨"h", 6333, "c", some (), true⟩
    (fun _ => .ok [⟨"a", 2, none⟩, ⟨"b", 1, none⟩]) [1] 10 0
    [⟨"a", 2, none⟩, ⟨"b", 1, none⟩]
    (by simp) rfl rfl (by decide)
    (by intro x hx; fin_cases hx <;> norm_num)
    (by decide)
  exact ⟨h.1, h.2.1⟩

/-- C7: `index_document` returns `true` exactly when the adapter is
connected and the underlying engine call acknowledged the write — for
Qdrant, `client.upsert` on the constructed point completed without
raising; for OpenSearch, `client.client.index` on the constructed body
returned a response whose `result` is `"created"` or `"updated"`.  In
every other case (disconnected state, exception, other response) it
returns `false`; the embedded operations are total, so nothing is raised. -/
theorem index_document_ack_contract (qs : QdrantState)
    (qclient : QPoint → Except Unit Unit)
    (dI : String) (v : List ℚ) (t d c : String)
    (md : Option (List (String × PVal)))
    (os : OSState) (oclient : OSDocBody → Except Unit OSWriteResponse) :
    ((qdrantIndexOp qs qclient dI v t d c md).1 = true ↔
      (qs.client ≠ none ∧ qs.connected = true ∧
        qclient (qdrantIndexPoint dI v t d c md) = .ok ())) ∧
    ((osIndexOp os oclient dI v t d c md).1 = true ↔
      (∃ cl, os.client = some cl ∧ os.connected = true ∧ cl.inner ≠ none ∧
        ∃ r, oclient (osIndexBody dI v t d c md) = .ok r ∧
          (r.result = some "created" ∨ r.result = some "updated"))) := by
  constructor
  · by_cases hguard : qs.client = none ∨ qs.connected = false
    · simp only [qdrantIndexOp, if_pos hguard]
      constructor
      · intro h; cases h
      · rintro ⟨h1, h2, _⟩
        rcases hguard with h | h
        · exact absurd h h1
        · rw [h2] at h; cases h
    · push_neg at hguard
      obtain ⟨h1, h2⟩ := hguard
      have h2' : qs.connected = true := by
        cases hcon : qs.connected
        · exact absurd hcon h2
        · rfl
      cases hcall : qclient (qdrantIndexPoint dI v t d c md) with
      | error e =>
        simp [qdrantIndexOp, h1, h2', hcall]
      | ok u =>
        cases u
        simp [qdrantIndexOp, h1, h2', hcall]
  · cases hc : os.client with
    | none => simp [osIndexOp, hc]
    | some cl =>
      cases hcon : os.connected with
      | false => simp [osIndexOp, hc, hcon]
      | true =>
        cases hi : cl.inner with
        | none => simp [osIndexOp, hc, hcon, hi]
        | some u =>
          cases hcall : oclient (osIndexBody dI v t d c md) with
          | error e => simp [osIndexOp, hc, hcon, hi, hcall]
          | ok r => simp [osIndexOp, hc, hcon, hi, hcall]

/-- C3 counterexample: with `limit = 0` and one qualifying hit, the
OpenSearch adapter returns one result, not zero — the `len(results) >=
limit` check runs only after appending, so the output is not "at most
limit results" for every limit. -/
theorem os_search_limit_counterexample :
    ¬ ((osSearchOp ⟨some ⟨"h", 9200⟩, "p", some ⟨some ()⟩, true⟩
        (.ok [{ source := some [], score := some 1, id := some "a" }])
        0 0).1.length ≤ 0) := by
  decide

/-- C3 amended: for `limit >= 1`, the OpenSearch adapter applies
`min_score` and `limit` client-side: its output is exactly the
order-preserving prefix of qualifying hits — the hits with
`score >= min_score`, in order, truncated to `limit` — each translated
from the hit's `_source`/`_score`/`_id` fields by `osTranslateDoc`; hence
at most `limit` results, each with score at least `min_score`.  (For
`limit <= 0` the adapter still returns the first qualifying hit, see the
counterexample.) -/
theorem os_search_contract_amended (s : OSState) (c : OSClient)
    (oracle : Except Unit (List OSHit)) (hits : List OSHit)
    (limit : Int) (minScore : ℚ)
    (hcl : s.client = some c) (hco : s.connected = true)
    (hin : c.inner ≠ none) (hres : oracle = .ok hits) (hlim : 1 ≤ limit) :
    (osSearchOp s oracle limit minScore).1 =
      ((hits.filter (fun d => !decide (osHitScore d < minScore))).take
        limit.toNat).map osTranslateDoc ∧
    (((osSearchOp s oracle limit minScore).1.length : Int) ≤ limit) ∧
    (∀ r ∈ (osSearchOp s oracle limit minScore).1, minScore ≤ r.score) := by
  obtain ⟨u, hu⟩ := Option.ne_none_iff_exists'.mp hin
  have h0 : ((0 : Nat) : Int) < limit := by
    push_cast
    omega
  have h3 := osSearchLoop_take_filter minScore limit hits 0 h0
  have hout : (osSearchOp s oracle limit minScore).1 =
      ((hits.filter (fun d => !decide (osHitScore d < minScore))).take
        limit.toNat).map osTranslateDoc := by
    simp only [Nat.cast_zero, Int.sub_zero] at h3
    simp [osSearchOp, hcl, hco, osClientSearch, hu, hres, h3]
  refine ⟨hout, ?_, ?_⟩
  · rw [hout, List.length_map]
    have h1 : ((hits.filter
        (fun d => !decide (osHitScore d < minScore))).take
          limit.toNat).length ≤ limit.toNat :=
      List.length_take_le _ _
    omega
  · intro r hr
    rw [hout] at hr
    rcases List.mem_map.mp hr with ⟨dd, hdd, hrfl⟩
    have hdd2 := List.mem_filter.mp (List.take_subset _ _ hdd)
    have hnot : ¬ (osHitScore dd < minScore) := by
      simpa using hdd2.2
    rw [← hrfl, osTranslateDoc_score]
    exact le_of_not_lt hnot

/-- Witness for C3 amended: three hits, `min_score = 2`, `limit = 2`:
the adapter keeps the first and third hit. -/
theorem os_search_contract_amended_witness :
    ((osSearchOp ⟨some ⟨"h", 9200⟩, "p", some ⟨some ()⟩, true⟩
        (.ok [{ source := some [], score := some 2, id := some "a" },
              { source := some [], score := some 1, id := some "b" },
              { source := some [], score := some 3, id := some "c" }])
        2 2).1.length : Int) ≤ 2 := by
  have h := os_search_contract_amended
    ⟨some ⟨"h", 9200⟩, "p", some ⟨some ()⟩, true⟩ ⟨some ()⟩
    (.ok [{ source := some [], score := some 2, id := some "a" },
          { source := some [], score := some 1, id := some "b" },
          { source := some [], score := some 3, id := some "c" }])
    [{ source := some [], score := some 2, id := some "a" },
     { source := some [], score := some 1, id := some "b" },
     { source := some [], score := some 3, id := some "c" }]
    2 2 rfl rfl (by simp) rfl (by omega)
  exact h.2.1

/-- C5: the payload field names `index_document` writes (`id`, `text`,
`details`, `category`, `metadata`) are exactly the names
`search_similar_documents` reads back: on a connected Qdrant adapter, when
the engine returns (for the indexed vector, any `limit >= 1` and
`min_score = 0`) the hit carrying the stored point's id and payload, the
resulting `SearchResult` has `doc_id == id`, `text == t`, `details == d`
and `category == c`. -/
theorem qdrant_index_search_roundtrip (s : QdrantState) (dI : String)
    (v : List ℚ) (t d c : String) (score : ℚ) (limit : Int)
    (hcl : s.client ≠ none) (hco : s.connected = true) (_hlim : 1 ≤ limit) :
    (qdrantSearchOp s
      (fun _ => .ok [{ id := (qdrantIndexPoint dI v t d c (some [])).id,
                       score := score,
                       payload := some (qdrantIndexPoint dI v t d c (some [])).payload }])
      v limit 0).1 =
      [{ doc_id := .str dI, text := .str t, details := .str d,
         category := .str c, score := score, metadata := .obj [] }] := by
  have hguard : ¬ (s.client = none ∨ s.connected = false) := by
    rintro (h | h)
    · exact hcl h
    · rw [hco] at h
      cases h
  simp only [qdrantSearchOp, if_neg hguard]
  rfl

/-- Witness for C5 at a concrete document. -/
theorem qdrant_index_search_roundtrip_witness :
    (qdrantSearchOp ⟨"h", 6333, "probe", some (), true⟩
      (fun _ => .ok [{ id := (qdrantIndexPoint "a" [1] "hello" "d1" "cat1" (some [])).id,
                       score := 1,
                       payload := some (qdrantIndexPoint "a" [1] "hello" "d1" "cat1" (some [])).payload }])
      [1] 1 0).1 =
      [{ doc_id := .str "a", text := .str "hello", details := .str "d1",
         category := .str "cat1", score := 1, metadata := .obj [] }] := by
  exact qdrant_index_search_roundtrip ⟨"h", 6333, "probe", some (), true⟩
    "a" [1] "hello" "d1" "cat1" 1 1 (by simp) rfl (by omega)

/-- C6: with an empty/`None` or `"auto"` requested type, the factory
selects the Qdrant adapter iff `QDRANT_HOST` is truthy; otherwise it
selects the OpenSearch adapter — both when the OpenSearch settings object
is non-null and when neither engine is configured (default fallback). -/
theorem factory_auto_selection (st : Settings) (bt : Option String)
    (hbt : bt = none ∨ bt = some "" ∨ bt = some "auto") :
    (createBackend st bt = some .qdrant ↔ hostTruthy st.qdrantHost = true) ∧
    (hostTruthy st.qdrantHost = false →
      createBackend st bt = some .opensearch) := by
  have hauto : createBackend st bt =
      (if pyLower (autoDetectBackend st) = "qdrant" then some .qdrant
       else if pyLower (autoDetectBackend st) = "opensearch" then some .opensearch
       else none) := by
    rcases hbt with h | h | h <;> subst h <;> simp [createBackend]
  cases hq : hostTruthy st.qdrantHost with
  | true =>
    have had : autoDetectBackend st = "qdrant" := by
      simp [autoDetectBackend, hq]
    rw [hauto, had]
    constructor
    · simp [show pyLower "qdrant" = "qdrant" from by decide]
    · intro h
      cases h
  | false =>
    have had : autoDetectBackend st = "opensearch" := by
      cases hos : st.os <;> simp [autoDetectBackend, hq, hos]
    rw [hauto, had]
    constructor
    · simp [show pyLower "opensearch" = "opensearch" from by decide,
        show ¬ ("opensearch" = "qdrant") from by decide]
    · intro _
      simp [show pyLower "opensearch" = "opensearch" from by decide,
        show ¬ ("opensearch" = "qdrant") from by decide]

/-- Witness for C6: `"auto"` with only a Qdrant host selects Qdrant;
`None` with only OpenSearch settings (and with nothing configured)
selects OpenSearch. -/
theorem factory_auto_selection_witness :
    createBackend ⟨some "qhost", some 6333, none, "idx"⟩ (some "auto")
        = some .qdrant ∧
    createBackend ⟨none, none, some ⟨"oshost", 9200⟩, "idx"⟩ none
        = some .opensearch ∧
    createBackend ⟨none, none, none, "idx"⟩ none = some .opensearch := by
  have h1 := factory_auto_selection ⟨some "qhost", some 6333, none, "idx"⟩
    (some "auto") (Or.inr (Or.inr rfl))
  have h2 := factory_auto_selection ⟨none, none, some ⟨"oshost", 9200⟩, "idx"⟩
    none (Or.inl rfl)
  have h3 := factory_auto_selection ⟨none, none, none, "idx"⟩
    none (Or.inl rfl)
  exact ⟨h1.1.mpr (by decide), h2.2 (by decide), h3.2 (by decide)⟩

/-- C8 counterexample: a successful OpenSearch search over a hit whose
`_source` lacks an `id` field and which carries no `_id` returns a
`SearchResult` with an empty `doc_id` (`str(doc.get("_id", ""))` is `""`),
contradicting "non-empty doc_id for every shape of hit". -/
theorem search_docid_counterexample :
    (osSearchOp ⟨some ⟨"h", 9200⟩, "p", some ⟨some ()⟩, true⟩
      (.ok [{ source := some [], score := some 1, id := none }]) 10 0).1 =
    [{ doc_id := .str "", text := .str "", details := .str "",
       category := .str "", score := 1, metadata := .obj [] }] := rfl

/-- C8 amended: every `SearchResult` returned by a successful
`search_similar_documents` call has a non-empty string `doc_id`, provided
each hit's payload/`_source` `id` field is a non-empty string when
present, and, when it is absent, the engine's own point/document id
string is non-empty (for OpenSearch: `_id` is present and non-empty).
Hits lacking both yield an empty `doc_id` (see the counterexample). -/
theorem search_docid_amended
    (qs : QdrantState) (client : QSearchRequest → Except Unit (List QHit))
    (v : List ℚ) (limit : Int) (minScore : ℚ) (qhits : List QHit)
    (hqres : client { collectionName := qs.collectionName, vector := v,
                      limit := limit, scoreThreshold := minScore } = .ok qhits)
    (hq : ∀ h ∈ qhits,
      (∀ pv, (h.payload.getD []).lookup "id" = some pv →
        ∃ s', pv = .str s' ∧ s' ≠ "") ∧
      ((h.payload.getD []).lookup "id" = none → h.id ≠ ""))
    (os : OSState) (oracle : Except Unit (List OSHit)) (ohits : List OSHit)
    (hores : oracle = .ok ohits)
    (ho : ∀ dd ∈ ohits,
      (∀ pv, (dd.source.getD []).lookup "id" = some pv →
        ∃ s', pv = .str s' ∧ s' ≠ "") ∧
      ((dd.source.getD []).lookup "id" = none → dd.id.getD "" ≠ "")) :
    (∀ r, r ∈ (qdrantSearchOp qs client v limit minScore).1 →
      ∃ s', r.doc_id = .str s' ∧ s' ≠ "") ∧
    (∀ r, r ∈ (osSearchOp os oracle limit minScore).1 →
      ∃ s', r.doc_id = .str s' ∧ s' ≠ "") := by
  constructor
  · intro r hr
    by_cases hguard : qs.client = none ∨ qs.connected = false
    · simp [qdrantSearchOp, hguard] at hr
    · simp only [qdrantSearchOp, if_neg hguard, hqres] at hr
      rcases List.mem_map.mp hr with ⟨h, hh, hrfl⟩
      subst hrfl
      have hdoc : (qTranslateHit h).doc_id
          = ((h.payload.getD []).lookup "id").getD (.str h.id) := rfl
      rw [hdoc]
      cases hlook : (h.payload.getD []).lookup "id" with
      | some pv =>
        simp only [Option.getD_some]
        exact (hq h hh).1 pv hlook
      | none =>
        simp only [Option.getD_none]
        exact ⟨h.id, rfl, (hq h hh).2 hlook⟩
  · intro r hr
    cases hc : os.client with
    | none => simp [osSearchOp, hc] at hr
    | some cl =>
      cases hcon : os.connected with
      | false => simp [osSearchOp, hc, hcon] at hr
      | true =>
        cases hi : cl.inner with
        | none => simp [osSearchOp, hc, hcon, osClientSearch, hi] at hr
        | some u =>
          simp only [osSearchOp, hc, hcon, osClientSearch, hi, hores] at hr
          simp at hr
          rcases osSearchLoop_mem minScore limit ohits 0 r hr
            with ⟨dd, hdd, hrfl⟩
          subst hrfl
          have hdoc : (osTranslateDoc dd).doc_id
              = ((dd.source.getD []).lookup "id").getD (.str (dd.id.getD ""))
              := rfl
          rw [hdoc]
          cases hlook : (dd.source.getD []).lookup "id" with
          | some pv =>
            simp only [Option.getD_some]
            exact (ho dd hdd).1 pv hlook
          | none =>
            simp only [Option.getD_none]
            exact ⟨dd.id.getD "", rfl, (ho dd hdd).2 hlook⟩

/-- Witness for C8 amended: a Qdrant hit whose payload lacks an `id` field
falls back to the engine's point id, and an OpenSearch hit with a
non-empty `_source.id` keeps it: both `doc_id`s are non-empty. -/
theorem search_docid_amended_witness :
    (∀ r ∈ (qdrantSearchOp ⟨"h", 6333, "c", some (), true⟩
        (fun _ => .ok [{ id := "pt1", score := 1, payload := some [] }])
        [1] 10 0).1, ∃ s', r.doc_id = .str s' ∧ s' ≠ "") ∧
    (∀ r ∈ (osSearchOp ⟨some ⟨"h", 9200⟩, "p", some ⟨some ()⟩, true⟩
        (.ok [{ source := some [("id", .str "a")], score := some 1,
                id := some "x" }]) 10 0).1,
      ∃ s', r.doc_id = .str s' ∧ s' ≠ "") := by
  have h := search_docid_amended ⟨"h", 6333, "c", some (), true⟩
    (fun _ => .ok [{ id := "pt1", score := 1, payload := some [] }])
    [1] 10 0 [{ id := "pt1", score := 1, payload := some [] }]
    rfl
    (by
      intro hh hmem
      refine ⟨?_, ?_⟩
      · intro pv hpv
        simp at hmem
        subst hmem
        simp [List.lookup] at hpv
      · intro _
        simp at hmem
        subst hmem
        simp)
    ⟨some ⟨"h", 9200⟩, "p", some ⟨some ()⟩, true⟩
    (.ok [{ source := some [("id", .str "a")], score := some 1,
            id := some "x" }])
    [{ source := some [("id", .str "a")], score := some 1, id := some "x" }]
    rfl
    (by
      intro dd hmem
      simp at hmem
      subst hmem
      refine ⟨?_, ?_⟩
      · intro pv hpv
        simp [List.lookup] at hpv
        subst hpv
        exact ⟨"a", rfl, by simp⟩
      · intro hnone
        simp [List.lookup] at hnone)
  exact h

/-- C9 counterexample: the OpenSearch adapter's `connect()` performs no
collection verification or creation: starting from an engine with no
collections, a successful `connect()` yields `is_connected == true` while
the engine-side collection set is still empty — the bound collection
`"probe"` was neither verified nor created. -/
theorem connect_provisioning_counterexample :
    osIsConnected
      (osConnect ⟨some ⟨"h", 9200⟩, "probe", some ⟨none⟩, false⟩ []
        (.ok true)).1 = true ∧
    (osConnect ⟨some ⟨"h", 9200⟩, "probe", some ⟨none⟩, false⟩ []
        (.ok true)).2 = [] := by
  exact ⟨rfl, rfl⟩

/-- C9 amended: only the Qdrant adapter's `connect()` verifies the bound
collection and auto-creates it when missing, and it always uses the
hard-coded default dimensionality 384 (matching the project's embedding
convention, but not overridable: the created size is 384 for every
adapter configuration); a successful connect over an existing collection
leaves the engine untouched; the OpenSearch adapter's `connect()`
delegates to the underlying client and never verifies or creates the
bound collection. -/
theorem connect_provisioning_amended (s : QdrantState)
    (world : CollectionWorld) :
    (qdrantConnect s world (.ok ()) .missingErr (.ok ())).2
        = (s.collectionName, 384) :: world ∧
    qdrantIsConnected
        (qdrantConnect s world (.ok ()) .missingErr (.ok ())).1 = true ∧
    (qdrantConnect s world (.ok ()) .found (.ok ())).2 = world ∧
    (∀ (os : OSState) (w : CollectionWorld) (o : Except Unit Bool),
      (osConnect os w o).2 = w) := by
  refine ⟨?_, ?_, ?_, ?_⟩
  · simp [qdrantConnect, qdrantCreateCollectionOp]
  · simp [qdrantConnect, qdrantCreateCollectionOp, qdrantIsConnected]
  · simp [qdrantConnect]
  · intro os w o
    cases hc : os.client <;> cases o <;>
      simp [osConnect, osClientConnectStep, hc]

end AIDRBastion
